import Mathlib

/-!
# Verification of the outreach sync-service core

Shallow embedding of the sync service (sync engine, token-bucket rate
limiter, schema transformer) with proofs of the specified properties.

Conventions of the embedding:
* Python dynamic values are the inductive `Value` (JSON-ish scalars);
  Python `float` is modelled by `Rat` (no claim exercises float rounding).
* Python dicts are association lists with unique keys, `Dict`.
* Fallible Python code returns `Except String α`; a raised exception is an
  `Except.error` carrying the message.
* Wallclock instants are integers (epoch seconds) in the engine and
  rationals in the rate limiter (where sub-second elapsed time matters).
-/

deriving instance DecidableEq for Except

namespace Outreach

/-- Dynamic (JSON-ish) scalar values flowing through records and responses. -/
inductive Value where
  | null : Value
  | str : String → Value
  | int : Int → Value
  | bool : Bool → Value
  | float : Rat → Value
deriving DecidableEq, Repr

/-- Python truthiness of a `Value` (`if x:`). -/
def Value.truthy : Value → Bool
  | .null => false
  | .str s => s ≠ ""
  | .int n => n ≠ 0
  | .bool b => b
  | .float q => q ≠ 0

/-- Python `str(x)` on our scalars. -/
def pyStr : Value → String
  | .null => "None"
  | .str s => s
  | .int n => toString n
  | .bool b => if b then "True" else "False"
  | .float q => toString q

/-- Strip leading and trailing whitespace from a character list
(`str.strip()`). -/
def trimChars (cs : List Char) : List Char :=
  ((cs.dropWhile Char.isWhitespace).reverse.dropWhile Char.isWhitespace).reverse

/-- Parse a nonempty digit string. -/
def parseNatChars : List Char → Option Nat
  | [] => none
  | cs => go cs 0
where
  go : List Char → Nat → Option Nat
  | [], acc => some acc
  | c :: cs, acc =>
    if c.isDigit then go cs (acc * 10 + (c.toNat - 48)) else none

/-- Parse an optionally signed digit string. -/
def parseIntChars : List Char → Option Int
  | [] => none
  | '-' :: cs => (parseNatChars cs).map (fun n => -(n : Int))
  | '+' :: cs => (parseNatChars cs).map (fun n => (n : Int))
  | cs => (parseNatChars cs).map (fun n => (n : Int))

/-- Python `int(x)`; raises (returns `.error`) on unparsable strings,
notably on the empty string. -/
def pyToInt : Value → Except String Int
  | .null => .error "int() argument is None"
  | .int n => .ok n
  | .bool b => .ok (if b then 1 else 0)
  | .float q => .ok (q.num.tdiv q.den)
  | .str s =>
    match parseIntChars (trimChars s.toList) with
    | some n => .ok n
    | none => .error ("invalid literal for int: " ++ s)

/-- Parse an optionally signed digit string with an optional fractional
part (the shapes of float literals the claims exercise; notably the empty
string is rejected, as Python `float("")` raises). -/
def parseDecimalChars (cs : List Char) : Option Rat :=
  match cs.span (fun c => c ≠ '.') with
  | (a, []) => (parseIntChars a).map (fun n => (n : Rat))
  | (a, _ :: b) =>
    if b.any (fun c => c = '.') then none
    else
      match parseIntChars a, parseNatChars b with
      | some n, some f =>
        let den : Rat := (10 : Rat) ^ b.length
        let frac : Rat := (f : Rat) / den
        some (if n < 0 then (n : Rat) - frac else (n : Rat) + frac)
      | _, _ => none

/-- Python `float(x)`; raises on unparsable strings, notably on the empty
string. -/
def pyToFloat : Value → Except String Rat
  | .null => .error "float() argument is None"
  | .int n => .ok (n : Rat)
  | .bool b => .ok (if b then 1 else 0)
  | .float q => .ok q
  | .str s =>
    match parseDecimalChars (trimChars s.toList) with
    | some q => .ok q
    | none => .error ("could not convert string to float: " ++ s)

/-- `lambda x: str(x).upper() if x else None` -/
def tr_to_upper (x : Value) : Except String Value :=
  if x.truthy then .ok (.str (pyStr x).toUpper) else .ok .null

/-- `lambda x: str(x).lower() if x else None` -/
def tr_to_lower (x : Value) : Except String Value :=
  if x.truthy then .ok (.str (pyStr x).toLower) else .ok .null

/-- `lambda x: str(x) if x is not None else None` -/
def tr_to_string (x : Value) : Except String Value :=
  if x = .null then .ok .null else .ok (.str (pyStr x))

/-- `lambda x: int(x) if x is not None else None` -/
def tr_to_int (x : Value) : Except String Value :=
  if x = .null then .ok .null else (pyToInt x).map .int

/-- `lambda x: float(x) if x is not None else None` -/
def tr_to_float (x : Value) : Except String Value :=
  if x = .null then .ok .null else (pyToFloat x).map .float

/-- `lambda x: bool(x) if x is not None else None` -/
def tr_to_bool (x : Value) : Except String Value :=
  if x = .null then .ok .null else .ok (.bool x.truthy)

/-- `SchemaTransformer._format_phone` -/
def tr_format_phone (x : Value) : Except String Value :=
  if ¬ x.truthy then .ok .null else
  let phone_str := (pyStr x).trim
  let digits := String.mk (phone_str.toList.filter Char.isDigit)
  if digits.length = 10 then .ok (.str ("+1" ++ digits))
  else if digits.length = 11 && digits.startsWith "1" then .ok (.str ("+" ++ digits))
  else .ok (.str phone_str)

/-- `SchemaTransformer._format_email` -/
def tr_format_email (x : Value) : Except String Value :=
  if ¬ x.truthy then .ok .null else
  let email_str := (pyStr x).trim.toLower
  let afterAt := ((email_str.splitOn "@").getLast?).getD ""
  if email_str.contains '@' && afterAt.contains '.' then .ok (.str email_str)
  else .ok .null

/-- Stand-in for the third-party `dateutil.parser.parse`: it is not part of
this repository, and no claim depends on a successful parse, so parsing is
modelled as always failing; on failure `_format_date` returns the input
string unchanged, which is the branch exercised below. -/
def parseDateISO (_s : String) : Option String := none

/-- `SchemaTransformer._format_date` (datetime inputs do not occur among our
scalars; strings go through the parse-or-return-original branch). -/
def tr_format_date (x : Value) : Except String Value :=
  if ¬ x.truthy then .ok .null else
  match x with
  | .str s =>
    match parseDateISO s with
    | some iso => .ok (.str iso)
    | none => .ok (.str s)
  | v => .ok (.str (pyStr v))

/-- Given the characters after an opening angle bracket, consume one or more
non-gt characters followed by a closing angle bracket, returning the
remainder; `none` if the regex `<[^>]+>` cannot match here. -/
def dropTagGo : List Char → Option (List Char)
  | [] => none
  | c :: cs => if c = '>' then some cs else dropTagGo cs

/-- Attempt to match `[^>]+>` at the head of the list. -/
def dropTag : List Char → Option (List Char)
  | [] => none
  | c :: cs => if c = '>' then none else dropTagGo cs

/-- One left-to-right pass of `re.sub` with pattern `<[^>]+>` and empty
replacement.  A successful `dropTag` always shortens the list, so fuel equal
to the input length (supplied by `cleanChars`) never runs out. -/
def cleanCharsFuel : Nat → List Char → List Char
  | 0, _ => []
  | _ + 1, [] => []
  | fuel + 1, c :: rest =>
    if c = '<' then
      match dropTag rest with
      | some rest2 => cleanCharsFuel fuel rest2
      | none => c :: cleanCharsFuel fuel rest
    else c :: cleanCharsFuel fuel rest

def cleanChars (cs : List Char) : List Char := cleanCharsFuel cs.length cs

/-- `SchemaTransformer._clean_html` -/
def tr_clean_html (x : Value) : Except String Value :=
  if ¬ x.truthy then .ok .null else
  .ok (.str (String.mk (cleanChars (pyStr x).toList)).trim)

/-- `SchemaTransformer._remove_special_chars`: keep `[a-zA-Z0-9\s]`, strip. -/
def tr_remove_special_chars (x : Value) : Except String Value :=
  if ¬ x.truthy then .ok .null else
  .ok (.str (String.mk ((pyStr x).toList.filter
    (fun c => c.isAlphanum || c.isWhitespace))).trim)

/-- `lambda x: str(x)[:255] if x else None` -/
def tr_truncate_255 (x : Value) : Except String Value :=
  if x.truthy then .ok (.str ((pyStr x).take 255)) else .ok .null

/-- The transformer registry built in `SchemaTransformer.__init__`. -/
def builtinTransformers : List (String × (Value → Except String Value)) :=
  [("to_upper", tr_to_upper),
   ("to_lower", tr_to_lower),
   ("to_string", tr_to_string),
   ("to_int", tr_to_int),
   ("to_float", tr_to_float),
   ("to_bool", tr_to_bool),
   ("format_phone", tr_format_phone),
   ("format_email", tr_format_email),
   ("format_date", tr_format_date),
   ("clean_html", tr_clean_html),
   ("truncate_255", tr_truncate_255),
   ("remove_special_chars", tr_remove_special_chars)]

/-- `SchemaTransformer.transform_value`: unknown names raise
TransformationError; any exception inside a transformer is wrapped into a
TransformationError. -/
def transform_value (reg : List (String × (Value → Except String Value)))
    (value : Value) (transformer_name : String) : Except String Value :=
  match reg.lookup transformer_name with
  | none => .error ("Unknown transformer: " ++ transformer_name)
  | some f =>
    match f value with
    | .ok r => .ok r
    | .error e => .error ("Transformation " ++ transformer_name ++ " failed: " ++ e)

/-- Python dicts over string keys (unique keys, insertion-ordered). -/
abbrev Dict := List (String × Value)

/-- `d.get(k)`: `None` both when the key is absent and when it maps to null. -/
def dictGet (d : Dict) (k : String) : Value :=
  match d.lookup k with
  | some v => v
  | none => .null

/-- `d[k] = v`: replace in place if the key exists, else append. -/
def dictSet : Dict → String → Value → Dict
  | [], k, v => [(k, v)]
  | (a, b) :: rest, k, v =>
    if a = k then (k, v) :: rest else (a, b) :: dictSet rest k v

/-- `SchemaMapping` (models.py): `required` defaults to `True`. -/
structure SchemaMapping where
  internal_field : String
  external_field : String
  transformer : Option String := none
  required : Bool := true
deriving DecidableEq, Repr

inductive Direction where
  | internalToExternal : Direction
  | externalToInternal : Direction
deriving DecidableEq, Repr

def source_field (m : SchemaMapping) : Direction → String
  | .internalToExternal => m.internal_field
  | .externalToInternal => m.external_field

def target_field (m : SchemaMapping) : Direction → String
  | .internalToExternal => m.external_field
  | .externalToInternal => m.internal_field

/-- `output_data[target_field] = transformed_value` guarded by the
`transformed_value is not None` check: null values are omitted. -/
def emitField (out : Dict) (k : String) (v : Value) : Dict :=
  if v = Value.null then out else dictSet out k v

/-- The body of the mapping loop in `SchemaTransformer.transform_record` for
one mapping: `.ok out` corresponds both to a normal iteration and to the
`continue` taken when an optional field fails to transform. -/
def transformMappingStep (reg : List (String × (Value → Except String Value)))
    (input_data : Dict) (direction : Direction) (m : SchemaMapping) (out : Dict) :
    Except String Dict :=
  let sf := source_field m direction
  let source_value := dictGet input_data sf
  if m.required && (source_value == Value.null) then
    .error ("Required field is missing: " ++ sf)
  else
    match m.transformer with
    | some tn =>
      if tn ≠ "" ∧ source_value ≠ Value.null then
        match transform_value reg source_value tn with
        | .ok tv => .ok (emitField out (target_field m direction) tv)
        | .error e => if m.required then .error e else .ok out
      else .ok (emitField out (target_field m direction) source_value)
    | none => .ok (emitField out (target_field m direction) source_value)

/-- The mapping loop of `transform_record`, with its output accumulator. -/
def transformRecordGo (reg : List (String × (Value → Except String Value)))
    (input_data : Dict) (direction : Direction) :
    List SchemaMapping → Dict → Except String Dict
  | [], out => .ok out
  | m :: ms, out =>
    match transformMappingStep reg input_data direction m out with
    | .error e => .error e
    | .ok out2 => transformRecordGo reg input_data direction ms out2

/-- `SchemaTransformer.transform_record`. -/
def transform_record (reg : List (String × (Value → Except String Value)))
    (input_data : Dict) (mappings : List SchemaMapping) (direction : Direction) :
    Except String Dict :=
  transformRecordGo reg input_data direction mappings []

/-! ## Token-bucket rate limiter (rate_limiter.py) -/

/-- The per-provider bucket hash stored in the backing store. -/
structure BucketState where
  tokens : Rat
  last_refill : Rat
deriving DecidableEq, Repr

/-- The atomic Lua script executed by `TokenBucket.consume`.  `st = none`
models an absent (expired) hash: both fields default, to `capacity` and to
`current_time` respectively.  Note `math.floor` on the refill amount. -/
def consume (capacity refill_rate : Rat) (st : Option BucketState)
    (tokens_requested current_time : Rat) : Bool × BucketState :=
  let current_tokens := match st with | some s => s.tokens | none => capacity
  let last_refill := match st with | some s => s.last_refill | none => current_time
  let time_elapsed := current_time - last_refill
  let tokens_to_add : Int := Int.floor (time_elapsed * refill_rate)
  let current_tokens := min capacity (current_tokens + (tokens_to_add : Rat))
  if tokens_requested ≤ current_tokens then
    (true, ⟨current_tokens - tokens_requested, current_time⟩)
  else
    (false, ⟨current_tokens, current_time⟩)

/-- `RateLimiterManager.add_provider`: per-minute rate converted to
tokens/second. -/
def refillRateOf (rate_limit_per_minute : Rat) : Rat :=
  rate_limit_per_minute / 60

/-- Modelled from the spec words (§4.1), for comparison with `consume`:
`refilled ← min(capacity, state.tokens + elapsed * refill_rate)` as an exact
real-valued quantity, no flooring. -/
def consumeSpec (capacity refill_rate : Rat) (st : Option BucketState)
    (tokens_requested current_time : Rat) : Bool × BucketState :=
  let current_tokens := match st with | some s => s.tokens | none => capacity
  let last_refill := match st with | some s => s.last_refill | none => current_time
  let refilled := min capacity (current_tokens + (current_time - last_refill) * refill_rate)
  if tokens_requested ≤ refilled then
    (true, ⟨refilled - tokens_requested, current_time⟩)
  else
    (false, ⟨refilled, current_time⟩)

/-! ## Data model (models.py) -/

inductive OperationType where
  | CREATE : OperationType
  | READ : OperationType
  | UPDATE : OperationType
  | DELETE : OperationType
deriving DecidableEq, Repr

inductive SyncStatus where
  | PENDING : SyncStatus
  | PROCESSING : SyncStatus
  | COMPLETED : SyncStatus
  | FAILED : SyncStatus
  | RETRYING : SyncStatus
deriving DecidableEq, Repr

inductive ProviderType where
  | salesforce : ProviderType
  | hubspot : ProviderType
  | pipedrive : ProviderType
  | custom : ProviderType
deriving DecidableEq, Repr

/-- `RecordData` (the auth-irrelevant fields). -/
structure RecordDataM where
  rid : Option String := none
  data : Dict
  schema_version : String := "1.0"
deriving DecidableEq, Repr

/-- `ProviderConfig` (auth configuration omitted: dispatch outcomes of the
HTTP layer are abstracted by an oracle below). -/
structure ProviderConfig where
  name : String
  provider_type : ProviderType
  rate_limit_per_minute : Int := 1000
  burst_limit : Int := 100
  timeout_seconds : Int := 30
  max_retries : Int := 3
deriving DecidableEq, Repr

/-- `get_default_mappings` (schema_transformer.py).  `required` is `true`
wherever the source does not pass it explicitly, matching the `Field(True)`
default of `SchemaMapping`. -/
def get_default_mappings : ProviderType → List SchemaMapping
  | .salesforce =>
    [⟨"first_name", "FirstName", none, true⟩,
     ⟨"last_name", "LastName", none, true⟩,
     ⟨"email", "Email", some "format_email", true⟩,
     ⟨"phone", "Phone", some "format_phone", true⟩,
     ⟨"company_id", "AccountId", none, true⟩,
     ⟨"title", "Title", none, true⟩]
  | .hubspot =>
    [⟨"first_name", "firstname", none, true⟩,
     ⟨"last_name", "lastname", none, true⟩,
     ⟨"email", "email", some "format_email", true⟩,
     ⟨"phone", "phone", some "format_phone", true⟩,
     ⟨"company_name", "company", none, true⟩,
     ⟨"title", "jobtitle", none, true⟩]
  | .pipedrive =>
    [⟨"full_name", "name", none, true⟩,
     ⟨"email", "email", some "format_email", true⟩,
     ⟨"phone", "phone", some "format_phone", true⟩,
     ⟨"organization_id", "org_id", some "to_int", true⟩]
  | .custom => []

/-- `SyncOperation` as submitted (timestamps are epoch seconds). -/
structure SyncOperation where
  id : String
  operation : OperationType
  provider : String
  record_id : Option String := none
  record_data : Option RecordDataM := none
  priority : Int := 5
  created_at : Int := 0
  scheduled_at : Option Int := none
deriving DecidableEq, Repr

/-- The serialized operation dictionary circulating through the queues
(`operation_data` / `operation_dict` in sync_engine.py).  Optional fields
model keys that may be absent from the serialized JSON. -/
structure OpData where
  id : String
  operation : OperationType
  provider : String
  record_id : Option String := none
  record_data : Option RecordDataM := none
  priority : Int := 5
  created_at : Int := 0
  scheduled_at : Option Int := none
  retry_count : Option Nat := none
  started_at : Option Int := none
  completed_at : Option Int := none
  response_data : Option Dict := none
  external_id : Option Value := none
  error_message : Option String := none
deriving DecidableEq, Repr

/-- The serialization built in `SyncEngine.submit_operation` (only the eight
submitted fields are written; the mutable fields are absent). -/
def serializeOperation (op : SyncOperation) : OpData :=
  { id := op.id, operation := op.operation, provider := op.provider,
    record_id := op.record_id, record_data := op.record_data,
    priority := op.priority, created_at := op.created_at,
    scheduled_at := op.scheduled_at }

/-- The redis-resident (plus in-memory provider table) state of a
`SyncEngine`.  The two sorted sets carry (member, score) pairs; the three
lists grow at the head (`lpush`).  Metrics counters are keyed by
(hour bucket, counter name). -/
structure EngineState where
  providers : List (String × ProviderConfig) := []
  pending : List (OpData × Int) := []
  processing : List (OpData × Int) := []
  completed : List OpData := []
  failed : List OpData := []
  dlq : List OpData := []
  metrics : List ((Int × String) × Int) := []
deriving DecidableEq, Repr

/-- `ZADD key {member: score}`: update the score if the member exists,
otherwise insert. -/
def zadd (zset : List (OpData × Int)) (member : OpData) (score : Int) :
    List (OpData × Int) :=
  match zset with
  | [] => [(member, score)]
  | (m, s) :: rest =>
    if m = member then (member, score) :: rest else (m, s) :: zadd rest member score

/-- `ZREM key member`. -/
def zrem (zset : List (OpData × Int)) (member : OpData) : List (OpData × Int) :=
  zset.filter (fun p => p.1 ≠ member)

/-- `BZPOPMIN`: the member with the least score (ties broken by list
position; redis breaks ties lexicographically on the serialized member, an
order no claim depends on). -/
def bzpopmin (zset : List (OpData × Int)) :
    Option ((OpData × Int) × List (OpData × Int)) :=
  match zset with
  | [] => none
  | p :: ps =>
    let best := ps.foldl (fun acc q => if q.2 < acc.2 then q else acc) p
    some (best, zrem zset best.1)

/-- `_update_metrics`: `INCRBY metrics:<hour>:<name>` (the 24h TTL is not
modelled; no claim depends on expiry). -/
def incrMetric (ms : List ((Int × String) × Int)) (key : Int × String) (v : Int) :
    List ((Int × String) × Int) :=
  match ms with
  | [] => [(key, v)]
  | (k, n) :: rest =>
    if k = key then (k, n + v) :: rest else (k, n) :: incrMetric rest key v

def getMetric (ms : List ((Int × String) × Int)) (key : Int × String) : Int :=
  (ms.lookup key).getD 0

/-- `strftime("%Y-%m-%d-%H")` partitions wallclock time into hours; we key
by the hour number directly. -/
def hourBucket (now : Int) : Int := now / 3600

/-- `SyncEngine.submit_operation`.  The unknown-provider `ValueError` is
raised before any store mutation, so the state comes back unchanged with
the error. -/
def submit_operation (s : EngineState) (op : SyncOperation) (now : Int) :
    EngineState × Except String String :=
  if (s.providers.lookup op.provider).isNone then
    (s, .error ("Unknown provider: " ++ op.provider))
  else
    ({ s with
        pending := zadd s.pending (serializeOperation op) op.priority,
        metrics := incrMetric s.metrics (hourBucket now, "operations_submitted") 1 },
     .ok op.id)

/-- `ExternalAPIClient.execute_operation` composed with the kwargs
construction of `SyncEngine._process_operation` (truthiness: an empty
`record_id` string is not passed).  The HTTP layer — including the
rate-limit admission check and auth inside `_make_request` — is abstracted
by the oracle `net`: `.ok` is the decoded response body, `.error` any of
RateLimitError / AuthenticationError / APIError it raises.  The
`record_id` / `record_data` KeyErrors and the schema transformation for
CREATE/UPDATE are computed from the source. -/
def execute_operation (cfg : ProviderConfig) (od : OpData)
    (net : Except String Dict) : Except String Dict :=
  let kwargs_rid : Option String :=
    match od.record_id with
    | some r => if r ≠ "" then some r else none
    | none => none
  let transformed : Except String Dict :=
    match od.record_data with
    | none => .error "KeyError: record_data"
    | some rd =>
      transform_record builtinTransformers rd.data
        (get_default_mappings cfg.provider_type) .internalToExternal
  match od.operation with
  | .CREATE =>
    match transformed with
    | .error e => .error e
    | .ok _ => net
  | .READ =>
    match kwargs_rid with
    | none => .error "KeyError: record_id"
    | some _ => net
  | .UPDATE =>
    match kwargs_rid with
    | none => .error "KeyError: record_id"
    | some _ =>
      match transformed with
      | .error e => .error e
      | .ok _ => net
  | .DELETE =>
    match kwargs_rid with
    | none => .error "KeyError: record_id"
    | some _ => net

/-- The body of `SyncEngine._process_operation` past the delayed-retry gate:
provider lookup, `started_at`, dispatch, and the success/failure mutation of
the operation dict.  Returns (state, success flag, mutated dict). -/
def process_operation_main (s : EngineState) (od : OpData) (now : Int)
    (net : Except String Dict) : EngineState × Bool × OpData :=
  match s.providers.lookup od.provider with
  | none =>
    let msg := "Unexpected error: Provider not configured: " ++ od.provider
    (s, false, { od with error_message := some msg })
  | some cfg =>
    let od1 := { od with started_at := some now }
    match execute_operation cfg od1 net with
    | .ok response =>
      let od2 := { od1 with completed_at := some now, response_data := some response }
      let od3 :=
        if od1.operation = .CREATE ∧ response ≠ [] then
          { od2 with external_id := some (dictGet response "id") }
        else od2
      (s, true, od3)
    | .error e => (s, false, { od1 with error_message := some e })

/-- `SyncEngine._process_operation`: the delayed-retry gate first — an
operation whose `scheduled_at` is in the (strict) future is re-added to
`pending` at its stored priority and reported as a success. -/
def process_operation (s : EngineState) (od : OpData) (now : Int)
    (net : Except String Dict) : EngineState × Bool × OpData :=
  match od.scheduled_at with
  | some t =>
    if now < t then
      ({ s with pending := zadd s.pending od od.priority }, true, od)
    else process_operation_main s od now net
  | none => process_operation_main s od now net

/-- One iteration of `SyncEngine._worker_loop` that pops an operation:
pop-min from `pending`, add the same serialized entry to `processing`,
process, remove from `processing`, then route.  Crucially, the entry pushed
to `completed` (and to the DLQ) is the ORIGINAL popped serialization
`operation_data`, not the mutated `operation_dict`; only the retry
re-enqueue serializes the mutated dict. -/
def worker_step (s : EngineState) (now : Int) (net : Except String Dict) :
    EngineState :=
  match bzpopmin s.pending with
  | none => s
  | some ((od, priority), rest) =>
    let s1 := { s with pending := rest, processing := zadd s.processing od priority }
    match process_operation s1 od now net with
    | (s2, success, od2) =>
      let s3 := { s2 with processing := zrem s2.processing od }
      if success then
        { s3 with
            completed := od :: s3.completed,
            metrics := incrMetric s3.metrics (hourBucket now, "operations_completed") 1 }
      else
        let retry_count := od2.retry_count.getD 0
        if retry_count < 3 then
          let delay : Int := min 300 ((2 : Int) ^ retry_count)
          let od3 := { od2 with
            retry_count := some (retry_count + 1),
            scheduled_at := some (now + delay) }
          { s3 with pending := zadd s3.pending od3 priority }
        else
          { s3 with
              dlq := od :: s3.dlq,
              metrics := incrMetric s3.metrics (hourBucket now, "operations_failed") 1 }

/-! ## Status query (sync_engine.py lines 108-160) -/

inductive QueueName where
  | pending : QueueName
  | processing : QueueName
  | completed : QueueName
  | failed : QueueName
  | dlq : QueueName
deriving DecidableEq, Repr

/-- The `status_mapping` dictionary of `_deserialize_sync_result`. -/
def status_mapping : QueueName → SyncStatus
  | .pending => .PENDING
  | .processing => .PROCESSING
  | .completed => .COMPLETED
  | .failed => .FAILED
  | .dlq => .FAILED

/-- `SyncResult` (models.py).  `external_id = some Value.null` encodes a
serialized `external_id: null`. -/
structure SyncResult where
  operation_id : String
  status : SyncStatus
  provider : String
  external_id : Option Value := none
  started_at : Option Int := none
  completed_at : Option Int := none
  error_message : Option String := none
  retry_count : Nat := 0
  response_data : Option Dict := none
deriving DecidableEq, Repr

/-- `SyncEngine._deserialize_sync_result`. -/
def deserialize_sync_result (d : OpData) (q : QueueName) : SyncResult :=
  { operation_id := d.id,
    status := status_mapping q,
    provider := d.provider,
    external_id := d.external_id,
    started_at := d.started_at,
    completed_at := d.completed_at,
    error_message := d.error_message,
    retry_count := d.retry_count.getD 0,
    response_data := d.response_data }

/-- `ZRANGE key 0 -1`: members in score order (stable on ties). -/
def zrangeAll (zset : List (OpData × Int)) : List OpData :=
  (zset.insertionSort (fun a b => a.2 ≤ b.2)).map Prod.fst

/-- The inner loop of `get_operation_status` over one queue. -/
def find_in_items (items : List OpData) (opid : String) : Option OpData :=
  items.find? (fun d => d.id == opid)

/-- `SyncEngine.get_operation_status`: scan the five tiers in order and
deserialize the first match. -/
def get_operation_status (s : EngineState) (opid : String) : Option SyncResult :=
  match find_in_items (zrangeAll s.pending) opid with
  | some d => some (deserialize_sync_result d .pending)
  | none =>
  match find_in_items (zrangeAll s.processing) opid with
  | some d => some (deserialize_sync_result d .processing)
  | none =>
  match find_in_items s.completed opid with
  | some d => some (deserialize_sync_result d .completed)
  | none =>
  match find_in_items s.failed opid with
  | some d => some (deserialize_sync_result d .failed)
  | none =>
  match find_in_items s.dlq opid with
  | some d => some (deserialize_sync_result d .dlq)
  | none => none

/-! ## Vocabulary for the claims -/

/-- `refilled` as computed by the source script: elapsed refill floored. -/
def refilledFloor (capacity rate t lr now : Rat) : Rat :=
  min capacity (t + ((Int.floor ((now - lr) * rate) : Int) : Rat))

/-- Boolean test that an `Except` result is `ok` of a given value (avoids a
`BEq (Except ..)` instance). -/
def exceptEqOk (x : Except String Value) (v : Value) : Bool :=
  match x with
  | .ok w => w == v
  | .error _ => false

/-- internal→external then external→internal with the same mapping set. -/
def roundTrip (r : Dict) (mappings : List SchemaMapping) : Except String Dict :=
  match transform_record builtinTransformers r mappings .internalToExternal with
  | .error e => .error e
  | .ok mid => transform_record builtinTransformers mid mappings .externalToInternal

/-- Every field of `r` is the `internal_field` of exactly one mapping. -/
def fieldsCoveredOnce (r : Dict) (mappings : List SchemaMapping) : Prop :=
  ∀ k ∈ r.map Prod.fst, mappings.countP (fun m => m.internal_field == k) = 1

def externalsNodup (mappings : List SchemaMapping) : Prop :=
  (mappings.map SchemaMapping.external_field).Nodup

def noTransformers (mappings : List SchemaMapping) : Prop :=
  ∀ m ∈ mappings, m.transformer = none

def valuesNonNull (r : Dict) : Prop := ∀ p ∈ r, p.2 ≠ Value.null

/-- Whether a mapping emits an output field: its source value is non-null. -/
def hitB (d : Dict) (direction : Direction) (m : SchemaMapping) : Bool :=
  !(dictGet d (source_field m direction) == Value.null)

/-- The pure output accumulation of the mapping loop when no mapping has a
transformer and no required check fires. -/
def foldEmit (d : Dict) (direction : Direction) (ms : List SchemaMapping)
    (out : Dict) : Dict :=
  ms.foldl
    (fun acc m => emitField acc (target_field m direction)
      (dictGet d (source_field m direction)))
    out

/-! ## Concrete fixtures used by counterexamples and witnesses -/

def fxProvider : ProviderConfig := { name := "p", provider_type := .custom }

def fxCreateOp : SyncOperation :=
  { id := "op1", operation := .CREATE, provider := "p",
    record_data := some { data := [("first_name", .str "A")] } }

/-- Engine state right after submitting `fxCreateOp` at time 0. -/
def fxSubmitted : EngineState :=
  (submit_operation { providers := [("p", fxProvider)] } fxCreateOp 0).1

/-- State after one worker step at time 10 where the dispatch succeeds with
response body `{id: "x"}` (the happy-path CREATE of spec §8 scenario 1). -/
def fxCompleted : EngineState :=
  worker_step fxSubmitted 10 (.ok [("id", Value.str "x")])

/-- A deferred operation: `scheduled_at = 100`, popped at time 50. -/
def fxDeferredOp : OpData :=
  { id := "op4", operation := .READ, provider := "p",
    record_id := some "r", scheduled_at := some 100 }

def fxDeferredState : EngineState :=
  { providers := [("p", fxProvider)], pending := [(fxDeferredOp, 5)] }

def fxDeferredAfter : EngineState := worker_step fxDeferredState 50 (.ok [])

def fxEmptyEngine : EngineState := {}

def fxNopeOp : SyncOperation :=
  { id := "w", operation := .DELETE, provider := "nope", record_id := some "r" }

/-- A READ without `record_id`: every dispatch attempt fails. -/
def fxC3Od : OpData := { id := "w3", operation := .READ, provider := "p" }

def fxC3S : EngineState :=
  { providers := [("p", fxProvider)], pending := [(fxC3Od, 5)] }

/-- `fxC3S` after the pop + handoff of `fxC3Od`. -/
def fxC3S1 : EngineState :=
  { fxC3S with pending := [], processing := zadd fxC3S.processing fxC3Od 5 }

/-- The mutated operation dict after the failed dispatch at time 4. -/
def fxC3Od2 : OpData :=
  { fxC3Od with started_at := some 4, error_message := some "KeyError: record_id" }

/-- A generic operation of kind `ty` submitted without `record_id`. -/
def c5Op (ty : OperationType) (opid pname : String) (rd : Option RecordDataM)
    (pr created : Int) : SyncOperation :=
  { id := opid, operation := ty, provider := pname, record_id := none,
    record_data := rd, priority := pr, created_at := created, scheduled_at := none }

/-- Engine state after submitting `c5Op` to a fresh engine whose only
registered provider is `pname`. -/
def c5S1 (ty : OperationType) (opid pname : String) (cfg : ProviderConfig)
    (rd : Option RecordDataM) (pr created now0 : Int) : EngineState :=
  (submit_operation { providers := [(pname, cfg)] }
    (c5Op ty opid pname rd pr created) now0).1

/-- Final state after four worker steps at times `now1 .. now4`. -/
def c5Final (ty : OperationType) (opid pname : String) (cfg : ProviderConfig)
    (rd : Option RecordDataM) (pr created now0 now1 now2 now3 now4 : Int)
    (net1 net2 net3 net4 : Except String Dict) : EngineState :=
  worker_step (worker_step (worker_step (worker_step
    (c5S1 ty opid pname cfg rd pr created now0) now1 net1) now2 net2) now3 net3)
    now4 net4

/-- Mapping list for the C9 counterexample: one optional mapping covering
the only field of the record, plus a required mapping for a field the
record does not have. -/
def c9M : List SchemaMapping :=
  [{ internal_field := "a", external_field := "b",
     transformer := none, required := false },
   { internal_field := "c", external_field := "d",
     transformer := none, required := true }]

/-- The submitted serialization of `c5Op`. -/
def c5Od0 (ty : OperationType) (opid pname : String) (rd : Option RecordDataM)
    (pr created : Int) : OpData :=
  { id := opid, operation := ty, provider := pname, record_id := none,
    record_data := rd, priority := pr, created_at := created }

/-- The re-enqueued dict after the k-th failed attempt at time `nowk`
(k = 1, 2): retry_count k, backoff `2^(k-1)` seconds. -/
def c5OdK (ty : OperationType) (opid pname : String) (rd : Option RecordDataM)
    (pr created : Int) (k : Nat) (nowk : Int) : OpData :=
  { id := opid, operation := ty, provider := pname, record_id := none,
    record_data := rd, priority := pr, created_at := created,
    scheduled_at := some (nowk + (2 : Int) ^ (k - 1)), retry_count := some k,
    started_at := some nowk, error_message := some "KeyError: record_id" }

end Outreach

namespace Outreach

/-! # Theorems -/

/-- C2 counterexample: with bucket state `{tokens = 1/2, last_refill = 0}`,
`capacity = 10`, `refill_rate = 1` token/sec and an acquire of `n = 1` at
`now = 3/4`, the exact real-valued refill of the claim gives
`refilled = 5/4 ≥ 1`, so the claim requires `true` with stored tokens
`1/4`; the source floors the elapsed refill to `0` tokens and returns
`false` with stored tokens `1/2`. -/
theorem C2_counterexample :
    (consume 10 1 (some ⟨1/2, 0⟩) 1 (3/4)).1 = false ∧
    (1 : Rat) ≤ min 10 ((1 : Rat)/2 + ((3 : Rat)/4 - 0) * 1) ∧
    consumeSpec 10 1 (some ⟨1/2, 0⟩) 1 (3/4) = (true, ⟨1/4, 3/4⟩) := by
  refine ⟨?_, by norm_num, ?_⟩
  · unfold consume
    norm_num
  · unfold consumeSpec
    norm_num

/-- C2 (amended): `acquire` behaves as the claim states except that the
refill is floored — `refilled = min(capacity, tokens + ⌊elapsed *
refill_rate⌋)` with `refill_rate = rate_per_minute / 60`; the result is
`true` with stored tokens `refilled - n` iff `n ≤ refilled`, else `false`
storing `refilled`; `last_refill := now` either way; an absent state
behaves as `{capacity, now}`; and (for a nonnegative state observed with a
non-decreasing clock) the stored count stays within `[0, capacity]`. -/
theorem C2_amended (rpm capacity t lr n now : Rat)
    (hcap : 0 ≤ capacity) (hrpm : 0 ≤ rpm) (ht : 0 ≤ t)
    (hlr : lr ≤ now) (hn : 0 ≤ n) :
    consume capacity (refillRateOf rpm) (some ⟨t, lr⟩) n now =
      (if n ≤ refilledFloor capacity (refillRateOf rpm) t lr now then
        (true, ⟨refilledFloor capacity (refillRateOf rpm) t lr now - n, now⟩)
      else
        (false, ⟨refilledFloor capacity (refillRateOf rpm) t lr now, now⟩)) ∧
    consume capacity (refillRateOf rpm) none n now
      = consume capacity (refillRateOf rpm) (some ⟨capacity, now⟩) n now ∧
    0 ≤ (consume capacity (refillRateOf rpm) (some ⟨t, lr⟩) n now).2.tokens ∧
    (consume capacity (refillRateOf rpm) (some ⟨t, lr⟩) n now).2.tokens ≤ capacity ∧
    (consume capacity (refillRateOf rpm) (some ⟨t, lr⟩) n now).2.last_refill = now := by
  have hrate : 0 ≤ refillRateOf rpm := by
    unfold refillRateOf; positivity
  have hadd : (0 : Rat) ≤ ((Int.floor ((now - lr) * refillRateOf rpm) : Int) : Rat) := by
    have hm : (0 : Rat) ≤ (now - lr) * refillRateOf rpm :=
      mul_nonneg (by linarith) hrate
    exact_mod_cast Int.floor_nonneg.mpr hm
  have href0 : 0 ≤ refilledFloor capacity (refillRateOf rpm) t lr now :=
    le_min hcap (by linarith)
  have hrefc : refilledFloor capacity (refillRateOf rpm) t lr now ≤ capacity :=
    min_le_left _ _
  refine ⟨rfl, rfl, ?_, ?_, ?_⟩ <;>
    · show _
      unfold consume
      simp only []
      split
      all_goals simp_all [refilledFloor]

/-- C2 witness: a concrete acquire satisfying all the hypotheses. -/
theorem C2_witness :
    (0 : Rat) ≤ 10 ∧ (0 : Rat) ≤ 60 ∧ (0 : Rat) ≤ 4 ∧ (2 : Rat) ≤ 5 ∧ (0 : Rat) ≤ 3 ∧
    (consume 10 (refillRateOf 60) (some ⟨4, 2⟩) 3 5 =
      (if (3 : Rat) ≤ refilledFloor 10 (refillRateOf 60) 4 2 5 then
        (true, ⟨refilledFloor 10 (refillRateOf 60) 4 2 5 - 3, 5⟩)
      else
        (false, ⟨refilledFloor 10 (refillRateOf 60) 4 2 5, 5⟩)) ∧
     consume 10 (refillRateOf 60) none 3 5
       = consume 10 (refillRateOf 60) (some ⟨10, 5⟩) 3 5 ∧
     0 ≤ (consume 10 (refillRateOf 60) (some ⟨4, 2⟩) 3 5).2.tokens ∧
     (consume 10 (refillRateOf 60) (some ⟨4, 2⟩) 3 5).2.tokens ≤ 10 ∧
     (consume 10 (refillRateOf 60) (some ⟨4, 2⟩) 3 5).2.last_refill = 5) :=
  ⟨by norm_num, by norm_num, by norm_num, by norm_num, by norm_num,
   C2_amended 60 10 4 2 3 5 (by norm_num) (by norm_num) (by norm_num)
     (by norm_num) (by norm_num)⟩

/-- C6: submitting an operation naming an unregistered provider raises the
unknown-provider error before any store mutation: the state is returned
unchanged, so no tier gains an entry and `operations_submitted` is not
incremented. -/
theorem C6_unknown_provider_submit (s : EngineState) (op : SyncOperation) (now : Int)
    (h : s.providers.lookup op.provider = none) :
    submit_operation s op now = (s, Except.error ("Unknown provider: " ++ op.provider)) := by
  unfold submit_operation
  rw [h]
  rfl

/-- C6 witness: submit to `"nope"` on an engine with no providers. -/
theorem C6_witness :
    (fxEmptyEngine.providers.lookup "nope" = none) ∧
    submit_operation fxEmptyEngine fxNopeOp 0
      = (fxEmptyEngine, Except.error "Unknown provider: nope") :=
  ⟨rfl, C6_unknown_provider_submit fxEmptyEngine fxNopeOp 0 rfl⟩

/-- C10: an operation id that the status-query scan finds only in the
dead-letter tier is reported with status FAILED — the very status value used
for the `failed` tier, making the two terminal tiers indistinguishable
through the result's status field. -/
theorem C10_dlq_failed_status (s : EngineState) (opid : String) (d : OpData)
    (h1 : find_in_items (zrangeAll s.pending) opid = none)
    (h2 : find_in_items (zrangeAll s.processing) opid = none)
    (h3 : find_in_items s.completed opid = none)
    (h4 : find_in_items s.failed opid = none)
    (h5 : find_in_items s.dlq opid = some d) :
    get_operation_status s opid = some (deserialize_sync_result d QueueName.dlq) ∧
    (deserialize_sync_result d QueueName.dlq).status = SyncStatus.FAILED ∧
    status_mapping QueueName.dlq = status_mapping QueueName.failed := by
  unfold get_operation_status
  rw [h1, h2, h3, h4, h5]
  exact ⟨rfl, rfl, rfl⟩

/-- C10 witness: a state whose only entry is a DLQ item. -/
theorem C10_witness :
    get_operation_status { dlq := [fxDeferredOp] } "op4"
      = some (deserialize_sync_result fxDeferredOp QueueName.dlq) ∧
    (deserialize_sync_result fxDeferredOp QueueName.dlq).status = SyncStatus.FAILED ∧
    status_mapping QueueName.dlq = status_mapping QueueName.failed :=
  C10_dlq_failed_status { dlq := [fxDeferredOp] } "op4" fxDeferredOp rfl rfl rfl rfl rfl

/-- C1: the success path discards the dispatch results from the stored
entry.  On the happy-path CREATE (spec §8 scenario 1: response `{id:"x"}`)
the worker does remove the operation from `processing`, push to `completed`
and bump `operations_completed` — but it pushes the ORIGINAL pre-dispatch
serialization, so the stored completed entry has no `completed_at`, no
`response_data` and no `external_id`, and the status query answers
COMPLETED with `external_id = None`, although `_process_operation` had
computed `external_id = "x"` on its in-memory dict. -/
theorem C1_success_entry_is_stale :
    fxCompleted.processing = [] ∧
    fxCompleted.completed = [serializeOperation fxCreateOp] ∧
    getMetric fxCompleted.metrics (hourBucket 10, "operations_completed") = 1 ∧
    (serializeOperation fxCreateOp).completed_at = none ∧
    (serializeOperation fxCreateOp).response_data = none ∧
    (serializeOperation fxCreateOp).external_id = none ∧
    get_operation_status fxCompleted "op1"
      = some (deserialize_sync_result (serializeOperation fxCreateOp) QueueName.completed) ∧
    (deserialize_sync_result (serializeOperation fxCreateOp) QueueName.completed).status
      = SyncStatus.COMPLETED ∧
    (deserialize_sync_result (serializeOperation fxCreateOp) QueueName.completed).external_id
      = none ∧
    (process_operation_main fxSubmitted (serializeOperation fxCreateOp) 10
        (.ok [("id", Value.str "x")])).2.2.external_id = some (Value.str "x") := by
  decide

/-- C4: the delayed-retry gate.  The operation (due at 100, popped at 50)
is indeed removed from `processing` and re-added to `pending` at its
original priority — but because `_process_operation` reports the deferral
as a success, the worker ALSO pushes the entry to `completed` and
increments `operations_completed`, contrary to the claim that no other
tier or counter changes. -/
theorem C4_deferred_also_marked_completed :
    fxDeferredOp.scheduled_at = some 100 ∧ ((50 : Int) < 100) = True ∧
    fxDeferredAfter.pending = [(fxDeferredOp, 5)] ∧
    fxDeferredAfter.processing = [] ∧
    fxDeferredAfter.completed = [fxDeferredOp] ∧
    getMetric fxDeferredAfter.metrics (hourBucket 50, "operations_completed") = 1 := by
  decide

/-- C8 counterexample: `to_string` applied to the empty string returns the
empty string, not null, refuting "all built-ins return null for null/empty
input" as stated. -/
theorem C8_counterexample :
    transform_value builtinTransformers (Value.str "") "to_string"
      = Except.ok (Value.str "") ∧
    Value.str "" ≠ Value.null := by
  decide

/-- C8 (amended): every built-in returns null on null input; the
truthiness-guarded built-ins (`to_upper`, `to_lower`, `format_phone`,
`format_email`, `format_date`, `clean_html`, `truncate_255`,
`remove_special_chars`) also return null on the empty string; but on the
empty string `to_string` returns `""`, `to_bool` returns `False`, and
`to_int` / `to_float` raise (wrapped into a TransformationError). -/
theorem C8_amended :
    (builtinTransformers.all fun p => exceptEqOk (p.2 Value.null) Value.null) = true ∧
    ((["to_upper", "to_lower", "format_phone", "format_email", "format_date",
       "clean_html", "truncate_255", "remove_special_chars"] : List String).all
      fun n => exceptEqOk (transform_value builtinTransformers (Value.str "") n)
        Value.null) = true ∧
    transform_value builtinTransformers (Value.str "") "to_string"
      = Except.ok (Value.str "") ∧
    transform_value builtinTransformers (Value.str "") "to_bool"
      = Except.ok (Value.bool false) ∧
    (∃ e, transform_value builtinTransformers (Value.str "") "to_int"
      = Except.error e) ∧
    (∃ e, transform_value builtinTransformers (Value.str "") "to_float"
      = Except.error e) := by
  exact ⟨by decide, by decide, by decide, by decide,
    ⟨"Transformation to_int failed: invalid literal for int: ", by decide⟩,
    ⟨"Transformation to_float failed: could not convert string to float: ", by decide⟩⟩

/-- C7 counterexample: a single optional mapping naming the unknown
transformer `"nope"` with a non-null source value does NOT raise — the
source catches the TransformationError and skips the field, returning an
empty output. -/
theorem C7_counterexample :
    transform_record builtinTransformers [("f", Value.str "v")]
      [{ internal_field := "f", external_field := "g",
         transformer := some "nope", required := false }]
      Direction.internalToExternal = Except.ok [] ∧
    (builtinTransformers.lookup "nope").isNone = true := by
  refine ⟨?_, by decide⟩
  decide

/-- A mapping whose (non-blank) transformer name is unknown and whose source
value is non-null: the step errors when required and is a no-op (`continue`)
when optional. -/
theorem transformMappingStep_unknown (reg : List (String × (Value → Except String Value)))
    (input_data : Dict) (direction : Direction) (m : SchemaMapping) (tn : String)
    (out : Dict) (htn : m.transformer = some tn) (hne : tn ≠ "")
    (hunknown : reg.lookup tn = none)
    (hsv : dictGet input_data (source_field m direction) ≠ Value.null) :
    transformMappingStep reg input_data direction m out =
      (if m.required then .error ("Unknown transformer: " ++ tn) else .ok out) := by
  unfold transformMappingStep
  rw [htn]
  have hbeq : (dictGet input_data (source_field m direction) == Value.null) = false := by
    simpa using hsv
  simp only [hbeq, Bool.and_false, Bool.false_eq_true, if_false]
  rw [if_pos ⟨hne, hsv⟩]
  unfold transform_value
  rw [hunknown]

/-- Splicing a mapping with an unknown transformer and non-null source into
the loop: errors somewhere if it is required, is invisible if optional. -/
theorem transformRecordGo_unknown_splice (reg : List (String × (Value → Except String Value)))
    (input_data : Dict) (direction : Direction) (ms2 : List SchemaMapping)
    (m : SchemaMapping) (tn : String) (htn : m.transformer = some tn) (hne : tn ≠ "")
    (hunknown : reg.lookup tn = none)
    (hsv : dictGet input_data (source_field m direction) ≠ Value.null) :
    ∀ (ms1 : List SchemaMapping) (out : Dict),
      (m.required = true →
        ∃ e, transformRecordGo reg input_data direction (ms1 ++ m :: ms2) out
          = Except.error e) ∧
      (m.required = false →
        transformRecordGo reg input_data direction (ms1 ++ m :: ms2) out
          = transformRecordGo reg input_data direction (ms1 ++ ms2) out) := by
  intro ms1
  induction ms1 with
  | nil =>
    intro out
    have hstep := transformMappingStep_unknown reg input_data direction m tn out
      htn hne hunknown hsv
    constructor
    · intro hreq
      rw [hreq] at hstep
      simp only [if_true] at hstep
      simp only [List.nil_append, transformRecordGo, hstep]
      exact ⟨_, rfl⟩
    · intro hreq
      rw [hreq] at hstep
      simp only [Bool.false_eq_true, if_false] at hstep
      simp only [List.nil_append, transformRecordGo, hstep]
  | cons m1 rest ih =>
    intro out
    constructor
    · intro hreq
      simp only [List.cons_append, transformRecordGo]
      cases hst : transformMappingStep reg input_data direction m1 out with
      | error e => exact ⟨e, rfl⟩
      | ok out2 => exact (ih out2).1 hreq
    · intro hreq
      simp only [List.cons_append, transformRecordGo]
      cases hst : transformMappingStep reg input_data direction m1 out with
      | error e => rfl
      | ok out2 => exact (ih out2).2 hreq

/-- C7 (amended): for every registry, record, direction, and mapping list
containing a mapping `m` whose transformer name is unknown (and non-blank)
with a non-null source value — if `m` is required, `transform_record`
raises a TransformationError; if `m` is optional, it is skipped: the result
equals transforming with `m` removed from the list. -/
theorem C7_amended (reg : List (String × (Value → Except String Value)))
    (input_data : Dict) (direction : Direction) (ms1 ms2 : List SchemaMapping)
    (m : SchemaMapping) (tn : String)
    (htn : m.transformer = some tn) (hne : tn ≠ "")
    (hunknown : reg.lookup tn = none)
    (hsv : dictGet input_data (source_field m direction) ≠ Value.null) :
    (m.required = true →
      ∃ e, transform_record reg input_data (ms1 ++ m :: ms2) direction
        = Except.error e) ∧
    (m.required = false →
      transform_record reg input_data (ms1 ++ m :: ms2) direction
        = transform_record reg input_data (ms1 ++ ms2) direction) :=
  transformRecordGo_unknown_splice reg input_data direction ms2 m tn
    htn hne hunknown hsv ms1 []

/-- C7 witness: both flavors at concrete inputs — a required mapping with
unknown transformer `"nope"` errors; an optional one is skipped. -/
theorem C7_witness :
    (∃ e, transform_record builtinTransformers [("f", Value.str "v")]
      [{ internal_field := "f", external_field := "g",
         transformer := some "nope", required := true }]
      Direction.internalToExternal = Except.error e) ∧
    transform_record builtinTransformers [("f", Value.str "v")]
      [{ internal_field := "f", external_field := "g",
         transformer := some "nope", required := false }]
      Direction.internalToExternal
      = transform_record builtinTransformers [("f", Value.str "v")] []
          Direction.internalToExternal :=
  ⟨(C7_amended builtinTransformers [("f", Value.str "v")] Direction.internalToExternal
      [] [] { internal_field := "f", external_field := "g",
              transformer := some "nope", required := true } "nope"
      rfl (by decide) rfl (by decide)).1 rfl,
   (C7_amended builtinTransformers [("f", Value.str "v")] Direction.internalToExternal
      [] [] { internal_field := "f", external_field := "g",
              transformer := some "nope", required := false } "nope"
      rfl (by decide) rfl (by decide)).2 rfl⟩

/-- Failure routing of the worker loop (shared helper): on a failed
processing outcome the worker either re-enqueues with backoff or
dead-letters, depending on the pre-attempt retry count. -/
theorem worker_step_failure_routing (s s2 : EngineState) (od od2 : OpData)
    (priority now : Int) (rest : List (OpData × Int)) (net : Except String Dict)
    (hpop : bzpopmin s.pending = some ((od, priority), rest))
    (hproc : process_operation
        { s with pending := rest, processing := zadd s.processing od priority }
        od now net = (s2, false, od2)) :
    worker_step s now net =
      (if od2.retry_count.getD 0 < 3 then
        { s2 with
            processing := zrem s2.processing od,
            pending := zadd s2.pending
              { od2 with
                  retry_count := some (od2.retry_count.getD 0 + 1),
                  scheduled_at := some (now + min 300 ((2 : Int) ^ (od2.retry_count.getD 0))) }
              priority }
      else
        { s2 with
            processing := zrem s2.processing od,
            dlq := od :: s2.dlq,
            metrics := incrMetric s2.metrics (hourBucket now, "operations_failed") 1 }) := by
  unfold worker_step
  rw [hpop]
  simp only [hproc, Bool.false_eq_true, if_false]

/-- C3: when processing reports failure (any error), the worker reads the
pre-attempt `retry_count` (default 0); if it is `< 3` it re-enqueues the
mutated dict to `pending` at the original popped priority with
`retry_count` incremented and `scheduled_at = now + min(300, 2^rc)` (i.e.
`2^(new_rc - 1)` capped at 300 seconds); otherwise it pushes the original
entry to the dead-letter tier and increments `operations_failed`. -/
theorem C3_failure_retry_backoff (s s2 : EngineState) (od od2 : OpData)
    (priority now : Int) (rest : List (OpData × Int)) (net : Except String Dict)
    (hpop : bzpopmin s.pending = some ((od, priority), rest))
    (hproc : process_operation
        { s with pending := rest, processing := zadd s.processing od priority }
        od now net = (s2, false, od2)) :
    worker_step s now net =
      (if od2.retry_count.getD 0 < 3 then
        { s2 with
            processing := zrem s2.processing od,
            pending := zadd s2.pending
              { od2 with
                  retry_count := some (od2.retry_count.getD 0 + 1),
                  scheduled_at := some (now + min 300 ((2 : Int) ^ (od2.retry_count.getD 0))) }
              priority }
      else
        { s2 with
            processing := zrem s2.processing od,
            dlq := od :: s2.dlq,
            metrics := incrMetric s2.metrics (hourBucket now, "operations_failed") 1 }) :=
  worker_step_failure_routing s s2 od od2 priority now rest net hpop hproc

/-- C3 witness: concrete failing dispatch (READ with no record_id) with
`retry_count` absent, so the `< 3` branch re-enqueues with a 1-second
backoff. -/
theorem C3_witness :
    worker_step fxC3S 4 (Except.ok []) =
      (if fxC3Od2.retry_count.getD 0 < 3 then
        { fxC3S1 with
            processing := zrem fxC3S1.processing fxC3Od,
            pending := zadd fxC3S1.pending
              { fxC3Od2 with
                  retry_count := some (fxC3Od2.retry_count.getD 0 + 1),
                  scheduled_at := some (4 + min 300 ((2 : Int) ^ (fxC3Od2.retry_count.getD 0))) }
              5 }
      else
        { fxC3S1 with
            processing := zrem fxC3S1.processing fxC3Od,
            dlq := fxC3Od :: fxC3S1.dlq,
            metrics := incrMetric fxC3S1.metrics (hourBucket 4, "operations_failed") 1 }) :=
  C3_failure_retry_backoff fxC3S fxC3S1 fxC3Od fxC3Od2 5 4 [] (Except.ok [])
    (by decide) (by decide)

/-- READ/UPDATE/DELETE with no `record_id`: `_process_operation` builds no
`record_id` kwarg and `execute_operation` hits `kwargs["record_id"]`
(KeyError) before any transformation or network traffic, for every provider
configuration and every network oracle. -/
theorem execute_operation_no_rid (cfg : ProviderConfig) (od : OpData)
    (net : Except String Dict) (hty : od.operation ≠ .CREATE)
    (hrid : od.record_id = none) :
    execute_operation cfg od net = Except.error "KeyError: record_id" := by
  unfold execute_operation
  rw [hrid]
  cases h : od.operation <;> simp_all

/-- A worker step on a state whose pending tier holds exactly one operation,
due now, whose dispatch fails: the worker either re-enqueues with backoff
(retry_count < 3) or dead-letters it. -/
theorem worker_step_singleton_fail (s : EngineState) (od : OpData)
    (pr now : Int) (cfg : ProviderConfig) (net : Except String Dict) (e : String)
    (hpend : s.pending = [(od, pr)]) (hproc : s.processing = [])
    (hdue : ∀ t, od.scheduled_at = some t → t ≤ now)
    (hprov : s.providers.lookup od.provider = some cfg)
    (hfail : execute_operation cfg { od with started_at := some now } net
      = Except.error e) :
    worker_step s now net =
      (if od.retry_count.getD 0 < 3 then
        { s with
            pending := [({ od with
                started_at := some now, error_message := some e,
                retry_count := some (od.retry_count.getD 0 + 1),
                scheduled_at := some (now + min 300 ((2 : Int) ^ (od.retry_count.getD 0))) }, pr)],
            processing := [] }
      else
        { s with
            pending := [], processing := [],
            dlq := od :: s.dlq,
            metrics := incrMetric s.metrics (hourBucket now, "operations_failed") 1 }) := by
  have hpop : bzpopmin s.pending = some ((od, pr), []) := by
    rw [hpend]
    simp [bzpopmin, zrem]
  have hmain : process_operation
      { s with pending := [], processing := zadd s.processing od pr } od now net
      = ({ s with pending := [], processing := zadd s.processing od pr }, false,
         { od with started_at := some now, error_message := some e }) := by
    unfold process_operation process_operation_main
    cases hsched : od.scheduled_at with
    | none =>
      rw [hsched] at hfail
      simp only [hprov, hfail]
    | some t =>
      rw [hsched] at hfail
      have hnot : ¬ (now < t) := not_lt.mpr (hdue t hsched)
      simp only [hnot, if_false, hprov, hfail]
  have hroute := worker_step_failure_routing s
    { s with pending := [], processing := zadd s.processing od pr } od
    { od with started_at := some now, error_message := some e } pr now [] net hpop hmain
  rw [hroute]
  by_cases hrc : od.retry_count.getD 0 < 3
  · rw [if_pos hrc, if_pos hrc, hproc]
    simp [zadd, zrem]
  · rw [if_neg hrc, if_neg hrc, hproc]
    simp [zadd, zrem]

/-- C5: an operation of kind READ, UPDATE or DELETE submitted without a
`record_id` to a registered provider: every dispatch attempt fails with the
`record_id` KeyError (whatever the provider configuration and network
outcome), and after the three backoff re-enqueues (1s, 2s, 4s) the fourth
pop dead-letters the operation: the final state holds it exactly in the
dead-letter tier, with `pending`, `processing` and `completed` empty and
`operations_failed` incremented. -/
theorem C5_missing_record_id_dead_letters
    (ty : OperationType) (hty : ty = .READ ∨ ty = .UPDATE ∨ ty = .DELETE)
    (opid pname : String) (cfg : ProviderConfig) (rd : Option RecordDataM)
    (pr created now0 now1 now2 now3 now4 : Int)
    (net1 net2 net3 net4 : Except String Dict)
    (h12 : now1 + 1 ≤ now2) (h23 : now2 + 2 ≤ now3) (h34 : now3 + 4 ≤ now4) :
    c5Final ty opid pname cfg rd pr created now0 now1 now2 now3 now4 net1 net2 net3 net4
      = { providers := [(pname, cfg)], pending := [], processing := [],
          completed := [], failed := [],
          dlq := [c5OdK ty opid pname rd pr created 3 now3],
          metrics := incrMetric [((hourBucket now0, "operations_submitted"), 1)]
            (hourBucket now4, "operations_failed") 1 } ∧
    (∀ (cfg2 : ProviderConfig) (od2 : OpData) (net : Except String Dict),
      od2.operation = ty → od2.record_id = none →
      execute_operation cfg2 od2 net = Except.error "KeyError: record_id") := by
  have htyne : ty ≠ OperationType.CREATE := by
    rcases hty with h | h | h <;> subst h <;> simp
  have hdisp : ∀ (cfg2 : ProviderConfig) (od2 : OpData) (net : Except String Dict),
      od2.operation = ty → od2.record_id = none →
      execute_operation cfg2 od2 net = Except.error "KeyError: record_id" := by
    intro cfg2 od2 net h1 h2
    exact execute_operation_no_rid cfg2 od2 net (by rw [h1]; exact htyne) h2
  refine ⟨?_, hdisp⟩
  have hs1 : c5S1 ty opid pname cfg rd pr created now0
      = { providers := [(pname, cfg)],
          pending := [(c5Od0 ty opid pname rd pr created, pr)],
          metrics := [((hourBucket now0, "operations_submitted"), 1)] } := by
    unfold c5S1 submit_operation
    simp [serializeOperation, c5Op, c5Od0, zadd, incrMetric]
  have e1 : worker_step
      { providers := [(pname, cfg)],
        pending := [(c5Od0 ty opid pname rd pr created, pr)],
        metrics := [((hourBucket now0, "operations_submitted"), 1)] } now1 net1
      = { providers := [(pname, cfg)],
          pending := [(c5OdK ty opid pname rd pr created 1 now1, pr)],
          metrics := [((hourBucket now0, "operations_submitted"), 1)] } := by
    have h := worker_step_singleton_fail
      { providers := [(pname, cfg)],
        pending := [(c5Od0 ty opid pname rd pr created, pr)],
        metrics := [((hourBucket now0, "operations_submitted"), 1)] }
      (c5Od0 ty opid pname rd pr created) pr now1 cfg net1 "KeyError: record_id"
      rfl rfl
      (by intro t ht; simp [c5Od0] at ht)
      (by simp [c5Od0, List.lookup])
      (execute_operation_no_rid cfg _ net1 (by simp [c5Od0]; exact htyne) rfl)
    rw [h]
    norm_num [c5Od0, c5OdK, min_def]
  have e2 : worker_step
      { providers := [(pname, cfg)],
        pending := [(c5OdK ty opid pname rd pr created 1 now1, pr)],
        metrics := [((hourBucket now0, "operations_submitted"), 1)] } now2 net2
      = { providers := [(pname, cfg)],
          pending := [(c5OdK ty opid pname rd pr created 2 now2, pr)],
          metrics := [((hourBucket now0, "operations_submitted"), 1)] } := by
    have h := worker_step_singleton_fail
      { providers := [(pname, cfg)],
        pending := [(c5OdK ty opid pname rd pr created 1 now1, pr)],
        metrics := [((hourBucket now0, "operations_submitted"), 1)] }
      (c5OdK ty opid pname rd pr created 1 now1) pr now2 cfg net2 "KeyError: record_id"
      rfl rfl
      (by intro t ht; norm_num [c5OdK] at ht; omega)
      (by simp [c5OdK, List.lookup])
      (execute_operation_no_rid cfg _ net2 (by simp [c5OdK]; exact htyne) rfl)
    rw [h]
    norm_num [c5OdK, min_def]
  have e3 : worker_step
      { providers := [(pname, cfg)],
        pending := [(c5OdK ty opid pname rd pr created 2 now2, pr)],
        metrics := [((hourBucket now0, "operations_submitted"), 1)] } now3 net3
      = { providers := [(pname, cfg)],
          pending := [(c5OdK ty opid pname rd pr created 3 now3, pr)],
          metrics := [((hourBucket now0, "operations_submitted"), 1)] } := by
    have h := worker_step_singleton_fail
      { providers := [(pname, cfg)],
        pending := [(c5OdK ty opid pname rd pr created 2 now2, pr)],
        metrics := [((hourBucket now0, "operations_submitted"), 1)] }
      (c5OdK ty opid pname rd pr created 2 now2) pr now3 cfg net3 "KeyError: record_id"
      rfl rfl
      (by intro t ht; norm_num [c5OdK] at ht; omega)
      (by simp [c5OdK, List.lookup])
      (execute_operation_no_rid cfg _ net3 (by simp [c5OdK]; exact htyne) rfl)
    rw [h]
    norm_num [c5OdK, min_def]
  have e4 : worker_step
      { providers := [(pname, cfg)],
        pending := [(c5OdK ty opid pname rd pr created 3 now3, pr)],
        metrics := [((hourBucket now0, "operations_submitted"), 1)] } now4 net4
      = { providers := [(pname, cfg)], pending := [], processing := [],
          completed := [], failed := [],
          dlq := [c5OdK ty opid pname rd pr created 3 now3],
          metrics := incrMetric [((hourBucket now0, "operations_submitted"), 1)]
            (hourBucket now4, "operations_failed") 1 } := by
    have h := worker_step_singleton_fail
      { providers := [(pname, cfg)],
        pending := [(c5OdK ty opid pname rd pr created 3 now3, pr)],
        metrics := [((hourBucket now0, "operations_submitted"), 1)] }
      (c5OdK ty opid pname rd pr created 3 now3) pr now4 cfg net4 "KeyError: record_id"
      rfl rfl
      (by intro t ht; norm_num [c5OdK] at ht; omega)
      (by simp [c5OdK, List.lookup])
      (execute_operation_no_rid cfg _ net4 (by simp [c5OdK]; exact htyne) rfl)
    rw [h]
    norm_num [c5OdK]
  unfold c5Final
  rw [hs1, e1, e2, e3, e4]

/-- C5 witness: a concrete READ without record_id, worker steps at times
10, 11, 13, 17 (satisfying the 1s/2s/4s backoff gaps). -/
theorem C5_witness :
    c5Final .READ "w5" "p" fxProvider none 5 0 0 10 11 13 17
        (Except.ok []) (Except.ok []) (Except.ok []) (Except.ok [])
      = { providers := [("p", fxProvider)], pending := [], processing := [],
          completed := [], failed := [],
          dlq := [c5OdK .READ "w5" "p" none 5 0 3 13],
          metrics := incrMetric [((hourBucket 0, "operations_submitted"), 1)]
            (hourBucket 17, "operations_failed") 1 } ∧
    (∀ (cfg2 : ProviderConfig) (od2 : OpData) (net : Except String Dict),
      od2.operation = .READ → od2.record_id = none →
      execute_operation cfg2 od2 net = Except.error "KeyError: record_id") :=
  C5_missing_record_id_dead_letters .READ (Or.inl rfl) "w5" "p" fxProvider none
    5 0 0 10 11 13 17 (Except.ok []) (Except.ok []) (Except.ok []) (Except.ok [])
    (by norm_num) (by norm_num) (by norm_num)

/-! ### Round-trip machinery for C9 -/

/-- `dict[k] = v` then lookup: the written key reads back `v`, others are
unchanged. -/
theorem lookup_dictSet (d : Dict) (k : String) (v : Value) (k2 : String) :
    (dictSet d k v).lookup k2 = if k2 = k then some v else d.lookup k2 := by
  induction d with
  | nil =>
    by_cases h : k2 = k
    · simp [dictSet, List.lookup, h]
    · simp [dictSet, List.lookup, h, beq_eq_false_iff_ne.mpr h]
  | cons p rest ih =>
    obtain ⟨a, b⟩ := p
    by_cases hak : a = k
    · subst hak
      by_cases h2 : k2 = a
      · simp [dictSet, List.lookup, h2]
      · simp [dictSet, List.lookup, h2, beq_eq_false_iff_ne.mpr h2]
    · by_cases h2 : k2 = a
      · have hk2k : k2 ≠ k := by rw [h2]; exact hak
        simp [dictSet, List.lookup, hak, h2, hk2k]
      · simp [dictSet, List.lookup, hak, beq_eq_false_iff_ne.mpr h2, ih]

/-- One loop iteration for a mapping without transformer: required check,
then emit the raw source value (nulls omitted). -/
theorem transformMappingStep_noTrans (reg : List (String × (Value → Except String Value)))
    (d : Dict) (direction : Direction) (m : SchemaMapping) (out : Dict)
    (hm : m.transformer = none) :
    transformMappingStep reg d direction m out =
      (if m.required = true ∧ dictGet d (source_field m direction) = Value.null
       then Except.error ("Required field is missing: " ++ source_field m direction)
       else Except.ok (emitField out (target_field m direction)
              (dictGet d (source_field m direction)))) := by
  unfold transformMappingStep
  rw [hm]
  by_cases hv : dictGet d (source_field m direction) = Value.null
  · cases hr : m.required
    · simp [hv, hr]
    · simp [hv, hr]
  · cases hr : m.required
    · simp [hv, hr, beq_eq_false_iff_ne.mpr hv]
    · simp [hv, hr, beq_eq_false_iff_ne.mpr hv]

/-- When no mapping carries a transformer and every required mapping has a
non-null source, the loop succeeds and computes the `foldEmit` output. -/
theorem transformRecordGo_noTrans (reg : List (String × (Value → Except String Value)))
    (d : Dict) (direction : Direction) :
    ∀ (ms : List SchemaMapping) (out : Dict),
    (∀ m ∈ ms, m.transformer = none) →
    (∀ m ∈ ms, m.required = true → dictGet d (source_field m direction) ≠ Value.null) →
    transformRecordGo reg d direction ms out
      = Except.ok (foldEmit d direction ms out) := by
  intro ms
  induction ms with
  | nil => intro out _ _; rfl
  | cons m rest ih =>
    intro out hnt hreq
    have hm : m.transformer = none := hnt m (List.mem_cons_self m rest)
    have hstep := transformMappingStep_noTrans reg d direction m out hm
    have hcond : ¬ (m.required = true ∧ dictGet d (source_field m direction) = Value.null) := by
      rintro ⟨ha, hb⟩
      exact hreq m (List.mem_cons_self m rest) ha hb
    rw [if_neg hcond] at hstep
    simp only [transformRecordGo, hstep]
    rw [ih _ (fun m2 h2 => hnt m2 (List.mem_cons_of_mem m h2))
           (fun m2 h2 => hreq m2 (List.mem_cons_of_mem m h2))]
    rfl

/-- Lookup in the emitted output: characterized by the first hitting mapping
targeting the key (unique when the hit targets are nodup). -/
theorem foldEmit_lookup (d : Dict) (direction : Direction) :
    ∀ (ms : List SchemaMapping) (out : Dict) (k : String),
    ((ms.filter (hitB d direction)).map (fun m => target_field m direction)).Nodup →
    (foldEmit d direction ms out).lookup k =
      (match (ms.filter (hitB d direction)).find?
          (fun m => target_field m direction == k) with
       | some m => some (dictGet d (source_field m direction))
       | none => out.lookup k) := by
  intro ms
  induction ms with
  | nil => intro out k _; rfl
  | cons m rest ih =>
    intro out k hnd
    by_cases hhit : hitB d direction m = true
    · have hfil : (m :: rest).filter (hitB d direction)
          = m :: rest.filter (hitB d direction) := by
        simp [List.filter, hhit]
      rw [hfil] at hnd ⊢
      have hv : dictGet d (source_field m direction) ≠ Value.null := by
        unfold hitB at hhit
        simpa using hhit
      have hemit : emitField out (target_field m direction)
          (dictGet d (source_field m direction))
          = dictSet out (target_field m direction)
              (dictGet d (source_field m direction)) := by
        unfold emitField
        rw [if_neg hv]
      have hfold : foldEmit d direction (m :: rest) out
          = foldEmit d direction rest
              (dictSet out (target_field m direction)
                (dictGet d (source_field m direction))) := by
        unfold foldEmit
        simp [List.foldl, hemit]
      rw [hfold]
      by_cases hk : target_field m direction = k
      · -- `m` is the first hit targeting `k`; later hits cannot target `k`.
        have hnotin : ∀ m2 ∈ rest.filter (hitB d direction),
            target_field m2 direction ≠ k := by
          intro m2 h2 hc
          have : target_field m direction
              ∈ (rest.filter (hitB d direction)).map
                  (fun m3 => target_field m3 direction) := by
            rw [hk, ← hc]
            exact List.mem_map_of_mem _ h2
          exact (List.nodup_cons.mp hnd).1 this
        have hfind : (rest.filter (hitB d direction)).find?
            (fun m2 => target_field m2 direction == k) = none := by
          rw [List.find?_eq_none]
          intro m2 h2
          exact beq_eq_false_iff_ne.mpr (hnotin m2 h2) ▸ (by simp [hnotin m2 h2])
        rw [ih _ k (List.nodup_cons.mp hnd).2, hfind]
        simp [List.find?, hk, lookup_dictSet]
      · have hfind : List.find? (fun m2 => target_field m2 direction == k)
            (m :: rest.filter (hitB d direction))
            = List.find? (fun m2 => target_field m2 direction == k)
                (rest.filter (hitB d direction)) := by
          simp [List.find?, beq_eq_false_iff_ne.mpr hk]
        rw [ih _ k (List.nodup_cons.mp hnd).2, hfind]
        cases hf : (rest.filter (hitB d direction)).find?
            (fun m2 => target_field m2 direction == k) with
        | some m2 => rfl
        | none => simp [lookup_dictSet, Ne.symm hk]
    · have hfil : (m :: rest).filter (hitB d direction)
          = rest.filter (hitB d direction) := by
        simp [List.filter, hhit]
      have hnull : dictGet d (source_field m direction) = Value.null := by
        unfold hitB at hhit
        simpa using hhit
      have hfold : foldEmit d direction (m :: rest) out
          = foldEmit d direction rest out := by
        unfold foldEmit
        simp [List.foldl, emitField, hnull]
      rw [hfil] at hnd ⊢
      rw [hfold, ih _ k hnd]

theorem lookup_mem : ∀ {r : Dict} {k : String} {v : Value},
    r.lookup k = some v → (k, v) ∈ r := by
  intro r
  induction r with
  | nil => intro k v h; simp [List.lookup] at h
  | cons p rest ih =>
    intro k v h
    obtain ⟨a, b⟩ := p
    by_cases hk : k = a
    · subst hk
      simp [List.lookup] at h
      simp [h]
    · simp only [List.lookup, beq_eq_false_iff_ne.mpr hk] at h
      exact List.mem_cons_of_mem _ (ih h)

theorem lookup_of_mem_keys : ∀ {r : Dict} {k : String},
    k ∈ r.map Prod.fst → ∃ v, r.lookup k = some v := by
  intro r
  induction r with
  | nil => intro k h; simp at h
  | cons p rest ih =>
    intro k h
    obtain ⟨a, b⟩ := p
    by_cases hk : k = a
    · subst hk
      exact ⟨b, by simp [List.lookup]⟩
    · have h2 : k ∈ rest.map Prod.fst := by
        simp only [List.map_cons, List.mem_cons] at h
        rcases h with h1 | h1
        · exact absurd h1 hk
        · exact h1
      obtain ⟨v, hv⟩ := ih h2
      exact ⟨v, by simp [List.lookup, beq_eq_false_iff_ne.mpr hk, hv]⟩

theorem lookup_eq_none_of_not_mem_keys : ∀ {r : Dict} {k : String},
    k ∉ r.map Prod.fst → r.lookup k = none := by
  intro r
  induction r with
  | nil => intro k _; rfl
  | cons p rest ih =>
    intro k h
    obtain ⟨a, b⟩ := p
    simp only [List.map, List.mem_cons, not_or] at h
    simp [List.lookup, beq_eq_false_iff_ne.mpr h.1, ih h.2]

theorem mem_keys_of_lookup {r : Dict} {k : String} {v : Value}
    (h : r.lookup k = some v) : k ∈ r.map Prod.fst := by
  by_contra hc
  rw [lookup_eq_none_of_not_mem_keys hc] at h
  cases h

theorem lookup_of_mem_keys_nodup : ∀ {r : Dict} {k : String} {v : Value},
    (r.map Prod.fst).Nodup → (k, v) ∈ r → r.lookup k = some v := by
  intro r
  induction r with
  | nil => intro k v _ h; cases h
  | cons p rest ih =>
    intro k v hnd h
    obtain ⟨a, b⟩ := p
    rcases List.mem_cons.mp h with h1 | h1
    · obtain ⟨hk, hv⟩ := Prod.mk.injEq .. ▸ h1
      subst hk; subst hv
      simp [List.lookup]
    · have hka : k ≠ a := by
        intro hk
        subst hk
        have : k ∈ rest.map Prod.fst := List.mem_map_of_mem Prod.fst h1
        exact (List.nodup_cons.mp hnd).1 this
      simp only [List.lookup, beq_eq_false_iff_ne.mpr hka]
      exact ih (List.nodup_cons.mp hnd).2 h1

/-- The emitted output at the target key of a hitting mapping, when all
target keys are distinct. -/
theorem foldEmit_lookup_target (d : Dict) (direction : Direction)
    (ms : List SchemaMapping) (m : SchemaMapping)
    (hndf : ((ms.filter (hitB d direction)).map
      (fun m2 => target_field m2 direction)).Nodup)
    (hm : m ∈ ms) (hhit : hitB d direction m = true) :
    (foldEmit d direction ms []).lookup (target_field m direction)
      = some (dictGet d (source_field m direction)) := by
  rw [foldEmit_lookup d direction ms [] (target_field m direction) hndf]
  have hmf : m ∈ ms.filter (hitB d direction) := List.mem_filter.mpr ⟨hm, hhit⟩
  cases hf : (ms.filter (hitB d direction)).find?
      (fun m2 => target_field m2 direction == target_field m direction) with
  | none =>
    rw [List.find?_eq_none] at hf
    have := hf m hmf
    simp at this
  | some m2 =>
    have hp := List.find?_some hf
    have hm2f : m2 ∈ ms.filter (hitB d direction) := List.mem_of_find?_eq_some hf
    have hte : target_field m2 direction = target_field m direction := by
      simpa using hp
    have : m2 = m := List.inj_on_of_nodup_map hndf hm2f hmf hte
    rw [this]

/-- When no hitting mapping targets `k`, the emitted output has no `k`. -/
theorem foldEmit_lookup_none (d : Dict) (direction : Direction)
    (ms : List SchemaMapping) (k : String)
    (hnd : ((ms.filter (hitB d direction)).map
      (fun m2 => target_field m2 direction)).Nodup)
    (h : ∀ m ∈ ms, hitB d direction m = true → target_field m direction ≠ k) :
    (foldEmit d direction ms []).lookup k = none := by
  rw [foldEmit_lookup d direction ms [] k hnd]
  cases hf : (ms.filter (hitB d direction)).find?
      (fun m2 => target_field m2 direction == k) with
  | none => rfl
  | some m2 =>
    have hp := List.find?_some hf
    have hmem := List.mem_of_find?_eq_some hf
    have hm2 : m2 ∈ ms := List.mem_of_mem_filter hmem
    have hhit2 : hitB d direction m2 = true := (List.mem_filter.mp hmem).2
    have : target_field m2 direction = k := by simpa using hp
    exact absurd this (h m2 hm2 hhit2)

/-- C9 counterexample: the conditions as claimed admit an extra REQUIRED
mapping whose internal field is not a field of `r` (here `c → d`); the
internal→external pass then raises on the missing required field, so the
round trip does not yield `r`. -/
theorem C9_counterexample :
    fieldsCoveredOnce [("a", Value.str "v")] c9M ∧
    externalsNodup c9M ∧ noTransformers c9M ∧ valuesNonNull [("a", Value.str "v")] ∧
    roundTrip [("a", Value.str "v")] c9M
      = Except.error "Required field is missing: c" := by
  refine ⟨?_, by unfold externalsNodup c9M; decide, ?_, ?_, by decide⟩
  · intro k hk
    simp at hk
    subst hk
    decide
  · intro m hm
    simp [c9M] at hm
    rcases hm with h | h <;> simp [h]
  · intro p hp
    simp at hp
    subst hp
    decide

/-- C9 (amended): the round trip holds once every REQUIRED mapping's
internal field is also a field of `r` (the condition the counterexample
forces): internal→external then external→internal succeeds and returns a
dict with exactly the lookups of `r`. -/
theorem C9_amended (r : Dict) (M : List SchemaMapping)
    (h1 : fieldsCoveredOnce r M)
    (h2 : externalsNodup M)
    (h3 : noTransformers M)
    (h4 : valuesNonNull r)
    (h5 : ∀ m ∈ M, m.required = true → m.internal_field ∈ r.map Prod.fst) :
    ∃ out : Dict, roundTrip r M = Except.ok out ∧
      ∀ k, out.lookup k = r.lookup k := by
  have h2' : (M.map SchemaMapping.external_field).Nodup := h2
  -- value facts about r
  have hget : ∀ {k : String} {v : Value}, r.lookup k = some v → dictGet r k = v := by
    intro k v h
    unfold dictGet
    rw [h]
  have hnn_iff_mem : ∀ j : String,
      dictGet r j ≠ Value.null ↔ j ∈ r.map Prod.fst := by
    intro j
    constructor
    · intro hnn
      cases hj : r.lookup j with
      | none =>
        exfalso
        apply hnn
        unfold dictGet
        rw [hj]
      | some v => exact mem_keys_of_lookup hj
    · intro hj
      obtain ⟨v, hv⟩ := lookup_of_mem_keys hj
      rw [hget hv]
      exact h4 (j, v) (lookup_mem hv)
  -- the unique mapping covering a field of r
  have huniq : ∀ j ∈ r.map Prod.fst, ∀ x ∈ M, ∀ y ∈ M,
      x.internal_field = j → y.internal_field = j → x = y := by
    intro j hj x hx y hy hxj hyj
    have hflj : (M.filter (fun m => m.internal_field == j)).length = 1 :=
      (List.countP_eq_length_filter _ _).symm.trans (h1 j hj)
    obtain ⟨m0, hm0⟩ := List.length_eq_one.mp hflj
    have hxm : x ∈ M.filter (fun m => m.internal_field == j) :=
      List.mem_filter.mpr ⟨hx, by simpa using hxj⟩
    have hym : y ∈ M.filter (fun m => m.internal_field == j) :=
      List.mem_filter.mpr ⟨hy, by simpa using hyj⟩
    rw [hm0] at hxm hym
    simp at hxm hym
    rw [hxm, hym]
  -- internal→external pass
  have hreq1 : ∀ m ∈ M, m.required = true →
      dictGet r (source_field m .internalToExternal) ≠ Value.null := by
    intro m hm hr
    exact (hnn_iff_mem _).mpr (h5 m hm hr)
  have hmid : transform_record builtinTransformers r M .internalToExternal
      = Except.ok (foldEmit r .internalToExternal M []) := by
    unfold transform_record
    exact transformRecordGo_noTrans _ r _ M [] h3 hreq1
  have hndf1 : ((M.filter (hitB r .internalToExternal)).map
      (fun m2 => target_field m2 .internalToExternal)).Nodup := by
    have hfull : (M.map (fun m2 => target_field m2 .internalToExternal)).Nodup := h2'
    exact hfull.sublist ((M.filter_sublist).map _)
  have hmid_at : ∀ m ∈ M, hitB r .internalToExternal m = true →
      (foldEmit r .internalToExternal M []).lookup m.external_field
        = some (dictGet r m.internal_field) :=
    fun m hm hh => foldEmit_lookup_target r .internalToExternal M m hndf1 hm hh
  have hmid_none : ∀ k : String,
      (∀ m ∈ M, hitB r .internalToExternal m = true → m.external_field ≠ k) →
      (foldEmit r .internalToExternal M []).lookup k = none :=
    fun k hno => foldEmit_lookup_none r .internalToExternal M k hndf1 hno
  -- hitting is preserved across the two passes
  have hit1_iff : ∀ m : SchemaMapping, hitB r .internalToExternal m = true
      ↔ dictGet r m.internal_field ≠ Value.null := by
    intro m
    simp [hitB, source_field]
  have hit2_iff : ∀ m : SchemaMapping,
      hitB (foldEmit r .internalToExternal M []) .externalToInternal m = true
      ↔ dictGet (foldEmit r .internalToExternal M []) m.external_field
          ≠ Value.null := by
    intro m
    simp [hitB, source_field]
  have hit2_eq : ∀ m ∈ M,
      hitB (foldEmit r .internalToExternal M []) .externalToInternal m
        = hitB r .internalToExternal m := by
    intro m hm
    by_cases hh : hitB r .internalToExternal m = true
    · rw [hh]
      rw [hit2_iff]
      unfold dictGet
      rw [hmid_at m hm hh]
      exact (hit1_iff m).mp hh
    · have hh1f : hitB r .internalToExternal m = false := by
        revert hh
        cases hitB r .internalToExternal m <;> simp
      have hl : (foldEmit r .internalToExternal M []).lookup m.external_field
          = none := by
        apply hmid_none
        intro m2 hm2 hh2 hce
        have hm2m : m2 = m := List.inj_on_of_nodup_map h2' hm2 hm hce
        rw [hm2m] at hh2
        exact hh hh2
      have h2f : hitB (foldEmit r .internalToExternal M [])
          .externalToInternal m = false := by
        have : dictGet (foldEmit r .internalToExternal M []) m.external_field
            = Value.null := by
          unfold dictGet
          rw [hl]
        rw [← Bool.not_eq_true]
        rw [hit2_iff]
        simp [this]
      rw [h2f, hh1f]
  -- external→internal pass
  have hreq2 : ∀ m ∈ M, m.required = true →
      dictGet (foldEmit r .internalToExternal M [])
        (source_field m .externalToInternal) ≠ Value.null := by
    intro m hm hr
    have hkmem := h5 m hm hr
    have hh1 : hitB r .internalToExternal m = true :=
      (hit1_iff m).mpr ((hnn_iff_mem _).mpr hkmem)
    show dictGet (foldEmit r .internalToExternal M []) m.external_field ≠ Value.null
    unfold dictGet
    rw [hmid_at m hm hh1]
    exact (hnn_iff_mem _).mpr hkmem
  have hout : transform_record builtinTransformers
      (foldEmit r .internalToExternal M []) M .externalToInternal
      = Except.ok (foldEmit (foldEmit r .internalToExternal M [])
          .externalToInternal M []) := by
    unfold transform_record
    exact transformRecordGo_noTrans _ _ _ M [] h3 hreq2
  -- nodup of the hitting internal fields for the return pass
  have hfcongr : M.filter (hitB (foldEmit r .internalToExternal M [])
      .externalToInternal) = M.filter (hitB r .internalToExternal) :=
    List.filter_congr hit2_eq
  have hndf2 : ((M.filter (hitB (foldEmit r .internalToExternal M [])
      .externalToInternal)).map
        (fun m2 => target_field m2 .externalToInternal)).Nodup := by
    rw [hfcongr]
    have hMnodup : M.Nodup := h2'.of_map
    have hFnodup : (M.filter (hitB r .internalToExternal)).Nodup :=
      hMnodup.filter _
    rw [List.nodup_map_iff_inj_on hFnodup]
    intro x hx y hy hxy
    have hx' := List.mem_filter.mp hx
    have hy' := List.mem_filter.mp hy
    have hjx : x.internal_field ∈ r.map Prod.fst :=
      (hnn_iff_mem _).mp ((hit1_iff x).mp hx'.2)
    have hxy' : x.internal_field = y.internal_field := hxy
    exact huniq _ hjx x hx'.1 y hy'.1 rfl hxy'.symm
  refine ⟨foldEmit (foldEmit r .internalToExternal M []) .externalToInternal M [],
    ?_, ?_⟩
  · unfold roundTrip
    rw [hmid]
    exact hout
  · intro k
    by_cases hk : k ∈ r.map Prod.fst
    · obtain ⟨v, hv⟩ := lookup_of_mem_keys hk
      have hflj : (M.filter (fun m => m.internal_field == k)).length = 1 :=
        (List.countP_eq_length_filter _ _).symm.trans (h1 k hk)
      obtain ⟨mk, hmk⟩ := List.length_eq_one.mp hflj
      have hmkmem : mk ∈ M.filter (fun m => m.internal_field == k) := by
        rw [hmk]
        exact List.mem_singleton_self mk
      have hmkM : mk ∈ M := List.mem_of_mem_filter hmkmem
      have hmki : mk.internal_field = k := by
        simpa using (List.mem_filter.mp hmkmem).2
      have hnnk : dictGet r k ≠ Value.null := (hnn_iff_mem _).mpr hk
      have hh1 : hitB r .internalToExternal mk = true :=
        (hit1_iff mk).mpr (by rw [hmki]; exact hnnk)
      have hh2 : hitB (foldEmit r .internalToExternal M [])
          .externalToInternal mk = true := by
        rw [hit2_eq mk hmkM]
        exact hh1
      have hout_at := foldEmit_lookup_target
        (foldEmit r .internalToExternal M []) .externalToInternal M mk
        hndf2 hmkM hh2
      have hmidv : dictGet (foldEmit r .internalToExternal M [])
          mk.external_field = v := by
        unfold dictGet
        rw [hmid_at mk hmkM hh1, hmki]
        exact hget hv
      have hout_at2 : (foldEmit (foldEmit r .internalToExternal M [])
          .externalToInternal M []).lookup mk.internal_field
          = some (dictGet (foldEmit r .internalToExternal M [])
              mk.external_field) := by
        simpa [target_field, source_field] using hout_at
      rw [← hmki, hout_at2, hmidv, hmki, hv]
    · have hrk : r.lookup k = none := lookup_eq_none_of_not_mem_keys hk
      have houtk : (foldEmit (foldEmit r .internalToExternal M [])
          .externalToInternal M []).lookup k = none := by
        apply foldEmit_lookup_none _ _ M k hndf2
        intro m2 hm2 hh2 hc
        have hh1' : hitB r .internalToExternal m2 = true := by
          rw [← hit2_eq m2 hm2]
          exact hh2
        have hmem : m2.internal_field ∈ r.map Prod.fst :=
          (hnn_iff_mem _).mp ((hit1_iff m2).mp hh1')
        have : m2.internal_field = k := hc
        rw [this] at hmem
        exact hk hmem
      rw [houtk, hrk]

/-- C9 witness: a two-field record with a bijective transformer-free
mapping set (one required, one optional) round-trips. -/
theorem C9_witness :
    ∃ out : Dict,
      roundTrip [("a", Value.str "v"), ("b", Value.int 2)]
        [{ internal_field := "a", external_field := "x",
           transformer := none, required := true },
         { internal_field := "b", external_field := "y",
           transformer := none, required := false }] = Except.ok out ∧
      ∀ k, out.lookup k
        = ([("a", Value.str "v"), ("b", Value.int 2)] : Dict).lookup k :=
  C9_amended [("a", Value.str "v"), ("b", Value.int 2)]
    [{ internal_field := "a", external_field := "x",
       transformer := none, required := true },
     { internal_field := "b", external_field := "y",
       transformer := none, required := false }]
    (by unfold fieldsCoveredOnce; decide)
    (by unfold externalsNodup; decide)
    (by unfold noTransformers; decide)
    (by unfold valuesNonNull; decide)
    (by decide)

end Outreach
